import Mathlib

/-!
Verification of the `orange-mini-api-rest` library (shallow embedding).

The embedding covers the two core source files and the dispatcher:

* `src/data-provider.mjs` — the ownership-partitioned store built on a
  key/value table (`search`, `getAndCheckAccess`, `save`, `_formatItem`,
  `_getOwnerResourceType`);
* `generic-rest-api.mjs` — the schema-driven request dispatcher
  (`registerResource`, `getSchema`, `LIST_SCHEMA`, `processRequest`,
  `routePost`, `routeReplaceItem`, `routeUpdateItem`).

JavaScript objects are embedded as association lists of string keys and
JSON-like scalar values; JS property assignment, `delete` and object spread
are embedded as operations on those lists.  The DynamoDB backing store is
external to the repository; its four operations (point get, unconditional
put, delete, range query with order / limit / exclusive-start cursor) are
modelled as operations on a list of rows, following the storage-transport
contract of the specification.  `marshall`/`unmarshall` from
`@aws-sdk/util-dynamodb` form a lossless pair for the value shapes used
here, so marshalled rows are represented directly by `RawItem`.
Asynchronous calls are sequential in the source (each `await` completes
before the next storage call), so they are embedded as plain sequential
state passing; every store-touching function additionally returns the list
of storage commands it issued, in order.
-/

namespace OrangeMiniApiRest

/-- JSON-like scalar values as they occur in the payloads handled by the
library (strings, numbers, booleans, null).  Numbers are embedded as `Int`:
the code only produces and compares integral timestamps and counters. -/
inductive JVal where
  | s (v : String)
  | n (v : Int)
  | b (v : Bool)
  | jnull
deriving DecidableEq

/-- A JavaScript object: an ordered association list of fields. -/
abbrev JObj := List (String × JVal)

/-- Property read `o[k]`: the value of the first field named `k`. -/
def jget (o : JObj) (k : String) : Option JVal :=
  match o with
  | [] => none
  | (k', v) :: rest => if k' = k then some v else jget rest k

/-- JS `k in o`. -/
def jhasKey (o : JObj) (k : String) : Bool :=
  match o with
  | [] => false
  | (k', _) :: rest => k' = k || jhasKey rest k

/-- Property assignment `o[k] = v`: overwrite the field in place when the
key is present, append it otherwise. -/
def jset (o : JObj) (k : String) (v : JVal) : JObj :=
  match o with
  | [] => [(k, v)]
  | (k', v') :: rest => if k' = k then (k, v) :: rest else (k', v') :: jset rest k v

/-- JS `delete o[k]`: remove the field named `k`. -/
def jerase (o : JObj) (k : String) : JObj :=
  match o with
  | [] => []
  | (k', v') :: rest => if k' = k then jerase rest k else (k', v') :: jerase rest k

/-- JS object spread: all fields of `a`, then the fields of `b` assigned
over them one by one. -/
def jspread (a b : JObj) : JObj :=
  match b with
  | [] => a
  | (k, v) :: rest => jspread (jset a k v) rest

/-- The keys of an object, in order. -/
def jkeys (o : JObj) : List String := o.map Prod.fst

/-- Well-formedness of an embedded object: keys are pairwise distinct, as
they are in any object produced by JavaScript evaluation. -/
abbrev KeysNodup (o : JObj) : Prop := (jkeys o).Nodup

/-- First-`some` choice of two optional values. -/
def jorElse (a b : Option JVal) : Option JVal :=
  match a with
  | some v => some v
  | none => b

theorem jget_jset_self (o : JObj) (k : String) (v : JVal) :
    jget (jset o k v) k = some v := by
  induction o with
  | nil => simp [jset, jget]
  | cons p rest ih =>
    by_cases hp : p.1 = k
    · simp [jset, jget, hp]
    · simpa [jset, jget, hp] using ih

theorem jget_jset_of_ne (o : JObj) (k k' : String) (v : JVal) (h : k' ≠ k) :
    jget (jset o k v) k' = jget o k' := by
  have hkk : ¬ k = k' := fun hk => h hk.symm
  induction o with
  | nil => simp [jset, jget, hkk]
  | cons p rest ih =>
    by_cases hp : p.1 = k
    · simp [jset, jget, hp, hkk]
    · by_cases hp' : p.1 = k'
      · simp [jset, jget, hp, hp', h]
      · simpa [jset, jget, hp, hp'] using ih

theorem jget_jerase_self (o : JObj) (k : String) :
    jget (jerase o k) k = none := by
  induction o with
  | nil => rfl
  | cons p rest ih =>
    by_cases hp : p.1 = k
    · simpa [jerase, hp] using ih
    · simpa [jerase, jget, hp] using ih

theorem jget_jerase_of_ne (o : JObj) (k k' : String) (h : k' ≠ k) :
    jget (jerase o k) k' = jget o k' := by
  have hkk : ¬ k = k' := fun hk => h hk.symm
  induction o with
  | nil => rfl
  | cons p rest ih =>
    by_cases hp : p.1 = k
    · have hne : ¬ p.1 = k' := fun hk => h (hk ▸ hp)
      simpa [jerase, jget, hp, hne, hkk] using ih
    · by_cases hp' : p.1 = k'
      · simp [jerase, jget, hp, hp', h]
      · simpa [jerase, jget, hp, hp'] using ih

theorem jget_eq_none_of_not_mem (o : JObj) (k : String) (h : k ∉ jkeys o) :
    jget o k = none := by
  induction o with
  | nil => rfl
  | cons p rest ih =>
    have hcons : k ∉ p.1 :: jkeys rest := h
    have h1 : ¬ p.1 = k := fun hk => hcons (by rw [hk]; exact List.mem_cons_self _ _)
    have h2 : k ∉ jkeys rest := fun hk => hcons (List.mem_cons_of_mem _ hk)
    simpa [jget, h1] using ih h2

theorem not_mem_of_jget_eq_none (o : JObj) (k : String) (h : jget o k = none) :
    k ∉ jkeys o := by
  induction o with
  | nil => simp [jkeys]
  | cons p rest ih =>
    simp only [jget] at h
    by_cases hp : p.1 = k
    · rw [if_pos hp] at h; exact absurd h (by simp)
    · rw [if_neg hp] at h
      intro hmem
      have hmem' : k ∈ p.1 :: jkeys rest := hmem
      rcases List.mem_cons.mp hmem' with hk | hk
      · exact hp hk.symm
      · exact ih h hk

theorem jget_jspread (a b : JObj) (k : String) (hb : KeysNodup b) :
    jget (jspread a b) k = jorElse (jget b k) (jget a k) := by
  induction b generalizing a with
  | nil => simp [jspread, jget, jorElse]
  | cons p rest ih =>
    have hparts := List.nodup_cons.mp (show (p.1 :: jkeys rest).Nodup from hb)
    have hb' : KeysNodup rest := hparts.2
    have hp1 : p.1 ∉ jkeys rest := hparts.1
    show jget (jspread (jset a p.1 p.2) rest) k = _
    rw [ih (jset a p.1 p.2) hb']
    by_cases hk : k = p.1
    · rw [hk, jget_eq_none_of_not_mem rest p.1 hp1, jget_jset_self]
      simp [jget, jorElse]
    · rw [jget_jset_of_ne a p.1 k p.2 hk]
      have hpk : ¬ p.1 = k := fun hh => hk hh.symm
      simp [jget, hpk]

/-! ## Data provider (`src/data-provider.mjs`)

`DataProvider` wraps a DynamoDB table whose primary key is `uuid` and whose
`OwnedResources` index has partition key `owned_resource_type` and sort key
`timestamp`.  A stored row is embedded as `RawItem`; the table as a list of
rows keyed by `uuid`.  The `DataProvider` instance state that matters to the
contract is the `prefix` constructor argument, passed here as `pfx`. -/

/-- A raw table row: `\x7b uuid, owned_resource_type, timestamp, data \x7d`
exactly as built by `save` and read back by `_formatItem`.  `timestamp` is
kept as a `JVal` because `save` copies `data.timestamp` into the row without
inspecting its type. -/
structure RawItem where
  uuid : String
  owned_resource_type : String
  timestamp : JVal
  data : JObj
deriving DecidableEq

/-- The DynamoDB table: its rows.  A real table is an unordered set keyed by
`uuid`; list order is irrelevant to point lookups and to query results,
which are sorted by the index sort key. -/
abbrev Table := List RawItem

/-- `GetItemCommand` with key `uuid` (the table's primary key). -/
def findItem (tbl : Table) (uuid : String) : Option RawItem :=
  match tbl with
  | [] => none
  | it :: rest => if it.uuid = uuid then some it else findItem rest uuid

/-- `PutItemCommand`: unconditional upsert by primary key. -/
def putItemTable (tbl : Table) (it : RawItem) : Table :=
  it :: tbl.filter (fun x => x.uuid ≠ it.uuid)

/-- `_getOwnerResourceType(userId, resource)`: the derived owner tag
`` `${this.prefix || ''}/${userId}:${resource}` ``.  (`pfx || ''` is `pfx`
for every string `pfx`, the empty string included.) -/
def getOwnerResourceType (pfx userId resource : String) : String :=
  pfx ++ "/" ++ userId ++ ":" ++ resource

/-- `_formatItem(raw)`: external form of a row —
`\x7b uuid: null, timestamp: null, ...item.data \x7d`, then
`delete output.owned_resource_type`, then `output.uuid = item.uuid` and
`output.timestamp = item.timestamp`.  The `is_raw` flag only selects
`unmarshall`, which is the identity in this embedding. -/
def formatItem (item : RawItem) : JObj :=
  jset
    (jset
      (jerase (jspread [("uuid", JVal.jnull), ("timestamp", JVal.jnull)] item.data)
        "owned_resource_type")
      "uuid" (JVal.s item.uuid))
    "timestamp" item.timestamp

/-- The query description `search` sends to DynamoDB (`QueryCommand`
parameters): partition-key equality on the owner tag, sort-key range
`[:start, :end]`, scan direction, optional `Limit`, optional
`ExclusiveStartKey` (owner tag, timestamp, uuid). -/
structure QueryParams where
  ownerTag : String
  startTs : Int
  endTs : Int
  scanIndexForward : Bool
  limit : Option Int := none
  exclusiveStartKey : Option (String × Int × String) := none
deriving DecidableEq

/-- One storage command sent to the DynamoDB client, as issued by the data
provider. -/
inductive StorageOp where
  | queryOp (p : QueryParams)
  | getOp (uuid : String)
  | putOp (item : RawItem)
  | deleteOp (uuid : String)
deriving DecidableEq

/-- The search options object taken by `search` (after list-schema
validation these fields are strings/integers; absent fields are `none`). -/
structure SearchOptions where
  start : Option Int := none
  endTs : Option Int := none
  sort : Option String := none
  limit : Option Int := none
  last_uuid : Option String := none
  last_timestamp : Option Int := none
deriving DecidableEq

/-- JS truthiness of an optional string (`undefined` and `''` are falsy). -/
def truthyOptStr (v : Option String) : Bool :=
  match v with
  | none => false
  | some str => str ≠ ""

/-- JS truthiness of an optional number (`undefined` and `0` are falsy). -/
def truthyOptInt (v : Option Int) : Bool :=
  match v with
  | none => false
  | some i => i ≠ 0

/-- The `params` object built by `search` before sending the
`QueryCommand`:
`:start` is `search.start || 0`; `:end` is `search.end || Date.now()`;
`ScanIndexForward` is `search.sort === 'asc'`;
`Limit` is set only `if (search.limit)` — only when `limit` is truthy;
`ExclusiveStartKey` is set only `if (search.last_uuid && search.last_timestamp)`
— only when both are truthy. -/
def buildQueryParams (pfx userId resource : String) (s : SearchOptions) (now : Int) :
    QueryParams :=
  { ownerTag := getOwnerResourceType pfx userId resource
    startTs := s.start.getD 0
    endTs :=
      match s.endTs with
      | some e => if e = 0 then now else e
      | none => now
    scanIndexForward := s.sort = some "asc"
    limit :=
      match s.limit with
      | some l => if l = 0 then none else some l
      | none => none
    exclusiveStartKey :=
      match s.last_uuid, s.last_timestamp with
      | some u, some t =>
        if u ≠ "" ∧ t ≠ 0 then some (getOwnerResourceType pfx userId resource, t, u)
        else none
      | _, _ => none }

/-- Sort-key value of a row (rows indexed by `OwnedResources` carry a
numeric timestamp). -/
def tsOf (it : RawItem) : Option Int :=
  match it.timestamp with
  | JVal.n t => some t
  | _ => none

/-- Modelled from the spec: whether a row matches the key condition
`#ort = :ort AND #ts BETWEEN :start AND :end` of the storage transport's
range query (DynamoDB itself is outside this repository). -/
def matchesQuery (p : QueryParams) (it : RawItem) : Bool :=
  it.owned_resource_type = p.ownerTag &&
    (match tsOf it with
     | some t => p.startTs ≤ t && t ≤ p.endTs
     | none => false)

/-- Sort key used for ordering query results. -/
def tsKey (it : RawItem) : Int := (tsOf it).getD 0

/-- Insert a row into a list sorted by timestamp (ascending when `asc`). -/
def insertByTs (asc : Bool) (it : RawItem) : List RawItem → List RawItem
  | [] => [it]
  | x :: rest =>
    if (if asc then tsKey it ≤ tsKey x else tsKey x ≤ tsKey it) then it :: x :: rest
    else x :: insertByTs asc it rest

/-- Modelled from the spec: the index orders matching rows by the sort key,
ascending when `ScanIndexForward` is true, descending otherwise. -/
def sortByTs (asc : Bool) : List RawItem → List RawItem
  | [] => []
  | x :: rest => insertByTs asc x (sortByTs asc rest)

/-- Modelled from the spec: an exclusive-start cursor resumes the query
strictly after the row holding the cursor's primary key. -/
def afterCursor (key : String × Int × String) : List RawItem → List RawItem
  | [] => []
  | x :: rest => if x.uuid = key.2.2 then rest else afterCursor key rest

/-- Modelled from the spec: execution of the storage transport's range query
(DynamoDB `QueryCommand` — partition-key equality plus sort-key range, with
order direction, limit, and exclusive-start cursor). -/
def runQuery (tbl : Table) (p : QueryParams) : List RawItem :=
  let ms := sortByTs p.scanIndexForward (tbl.filter (matchesQuery p))
  let ms :=
    match p.exclusiveStartKey with
    | some key => afterCursor key ms
    | none => ms
  match p.limit with
  | some l => ms.take l.toNat
  | none => ms

/-- `search(userId, resource, search)`: builds the query parameters, runs
the query, formats each returned row.  (`params_callback` is `null` in every
caller embedded here and is omitted.)  Returns the formatted items and the
issued storage commands. -/
def search (pfx : String) (tbl : Table) (userId resource : String)
    (s : SearchOptions) (now : Int) : List JObj × List StorageOp :=
  let p := buildQueryParams pfx userId resource s now
  ((runQuery tbl p).map formatItem, [StorageOp.queryOp p])

/-- `getAndCheckAccess(userId, resource, uuid)`: point `GetItemCommand` by
`uuid`, then `null` if the row is absent, `null` if the row's stored
`owned_resource_type` differs from the tag computed from
`(userId, resource)`, the formatted row otherwise. -/
def getAndCheckAccess (pfx : String) (tbl : Table) (userId resource uuid : String) :
    Option JObj × List StorageOp :=
  match findItem tbl uuid with
  | none => (none, [StorageOp.getOp uuid])
  | some it =>
    if it.owned_resource_type ≠ getOwnerResourceType pfx userId resource then
      (none, [StorageOp.getOp uuid])
    else (some (formatItem it), [StorageOp.getOp uuid])

/-- `save(userId, resource, data_raw, current_uuid)`: uuid is
`current_uuid || v4()` (the fresh identifier is passed in as `genUuid`);
`timestamp` starts as `Date.now()` but is replaced by `data.timestamp` when
the payload carries that field, which is then deleted from the copied data;
the row is written with an unconditional `PutItemCommand`.  Returns the
external form of the row, the new table, and the issued commands. -/
def save (pfx : String) (tbl : Table) (userId resource : String) (data_raw : JObj)
    (current_uuid : Option String) (genUuid : String) (now : Int) :
    JObj × Table × List StorageOp :=
  let uuid :=
    match current_uuid with
    | some u => if u = "" then genUuid else u
    | none => genUuid
  let td : JVal × JObj :=
    match jget data_raw "timestamp" with
    | some t => (t, jerase data_raw "timestamp")
    | none => (JVal.n now, data_raw)
  let item : RawItem :=
    { uuid := uuid
      owned_resource_type := getOwnerResourceType pfx userId resource
      timestamp := td.1
      data := td.2 }
  (formatItem item, putItemTable tbl item, [StorageOp.putOp item])

theorem findItem_putItemTable_self (tbl : Table) (it : RawItem) :
    findItem (putItemTable tbl it) it.uuid = some it := by
  simp [putItemTable, findItem]

theorem jget_formatItem_timestamp (item : RawItem) :
    jget (formatItem item) "timestamp" = some item.timestamp := by
  unfold formatItem
  exact jget_jset_self _ _ _

theorem jget_formatItem_uuid (item : RawItem) :
    jget (formatItem item) "uuid" = some (JVal.s item.uuid) := by
  unfold formatItem
  rw [jget_jset_of_ne _ _ _ _ (by decide)]
  exact jget_jset_self _ _ _

theorem jget_formatItem_ort (item : RawItem) :
    jget (formatItem item) "owned_resource_type" = none := by
  unfold formatItem
  rw [jget_jset_of_ne _ _ _ _ (by decide), jget_jset_of_ne _ _ _ _ (by decide)]
  exact jget_jerase_self _ _

theorem jget_formatItem_payload (item : RawItem) (f : String)
    (hd : KeysNodup item.data) (h1 : f ≠ "uuid") (h2 : f ≠ "timestamp")
    (h3 : f ≠ "owned_resource_type") :
    jget (formatItem item) f = jget item.data f := by
  unfold formatItem
  rw [jget_jset_of_ne _ _ _ _ h2, jget_jset_of_ne _ _ _ _ h1,
    jget_jerase_of_ne _ _ _ h3, jget_jspread _ _ _ hd]
  have hbase : jget [("uuid", JVal.jnull), ("timestamp", JVal.jnull)] f = none := by
    have hu : ¬ ("uuid" = f) := fun h => h1 h.symm
    have ht : ¬ ("timestamp" = f) := fun h => h2 h.symm
    simp [jget, hu, ht]
  rw [hbase]
  cases jget item.data f <;> rfl

/-! ## Validator, ApiGateway and dispatcher (`generic-rest-api.mjs`,
`src/api-gateway.mjs`) -/

/-- One field constraint of an `orange-dragonfly-validator` schema, reduced
to the features the registered schemas in this code base use: a type name,
`min`/`max` bounds (value for integers, length for strings), `required`.
(`transform`/`apply_transformed`/`default` belong to the external validator
execution and are not modelled.) -/
structure FieldRule where
  type : Option String := none
  min : Option Int := none
  max : Option Int := none
  required : Bool := false
deriving DecidableEq

/-- A resource schema: field name to constraint. -/
abbrev Schema := List (String × FieldRule)

/-- The validator's type name for an embedded value. -/
def typeName (v : JVal) : String :=
  match v with
  | JVal.s _ => "string"
  | JVal.n _ => "integer"
  | JVal.b _ => "boolean"
  | JVal.jnull => "null"

/-- The magnitude `min`/`max` bounds apply to: the value for integers, the
length for strings. -/
def valSize (v : JVal) : Int :=
  match v with
  | JVal.s str => str.length
  | JVal.n i => i
  | JVal.b _ => 0
  | JVal.jnull => 0

/-- Whether a single value satisfies a field rule. -/
def checkRule (r : FieldRule) (v : JVal) : Bool :=
  (match r.type with
   | some t => typeName v = t
   | none => true) &&
  (match r.min with
   | some m => m ≤ valSize v
   | none => true) &&
  (match r.max with
   | some m => valSize v ≤ m
   | none => true)

/-- Modelled from the spec: `validate(schema, input)` — the external
validator of §6 "consumes a declarative field-constraint schema and a
candidate mapping; either succeeds ... or raises a validation failure
carrying structured per-field error details".  Each schema field is checked
against the input; a missing required field or a failing check contributes a
per-field error.  (The validator package itself is outside this
repository.) -/
def validateObj (schema : Schema) (input : JObj) : Except JObj Unit :=
  let errs :=
    schema.foldl
      (fun acc kr =>
        match jget input kr.1 with
        | some v => if checkRule kr.2 v then acc else acc ++ [(kr.1, JVal.s "invalid")]
        | none => if kr.2.required then acc ++ [(kr.1, JVal.s "required")] else acc)
      ([] : JObj)
  if errs = [] then Except.ok () else Except.error errs

/-- Any implementation of the external validator interface: success, or a
validation failure carrying structured per-field details (the `info` of a
`ValidationException`). -/
abbrev Validator := Schema → JObj → Except JObj Unit

/-- Failure escaping a verb handler: a `ValidationException` carrying its
`info`, or any other thrown error (carrying a message the dispatcher must
not leak). -/
inductive HandlerErr where
  | validation (info : JObj)
  | generic (msg : String)
deriving DecidableEq

/-- An AWS API Gateway response as far as the dispatcher's contract goes:
status code and JSON body.  `ApiGateway.response` additionally builds CORS
headers, stringifies the body and validates that the status lies in
100–599; headers and stringification carry no dispatcher logic, and every
status produced by the embedded handlers is a constant in range, so the
throwing branch is unreachable here. -/
structure Response where
  statusCode : Nat
  body : JObj
deriving DecidableEq

/-- `ApiGateway.response(body, statusCode)` for an object body. -/
def apiResponse (body : JObj) (statusCode : Nat) : Response :=
  { statusCode := statusCode, body := body }

/-- `ApiGateway.error(message, statusCode, errorDetails)`: body is
`Object.assign(\x7b message, time \x7d, errorDetails)` where `time` is the
current ISO timestamp, passed in as `timeIso`. -/
def apiError (message : String) (statusCode : Nat) (errorDetails : JObj)
    (timeIso : String) : Response :=
  apiResponse (jspread [("message", JVal.s message), ("time", JVal.s timeIso)] errorDetails)
    statusCode

/-- The process-wide schema registry `GenericRestAPI._SCHEMAS`: `none`
while no resource has ever been registered (the property is `undefined`),
otherwise the name-to-schema table. -/
abbrev Registry := Option (List (String × Schema))

/-- Lookup in the registered-schemas table. -/
def lookupSchema (m : List (String × Schema)) (name : String) : Option Schema :=
  match m with
  | [] => none
  | (k, s) :: rest => if k = name then some s else lookupSchema rest name

/-- `registerResource(name, schema)`: initializes `_SCHEMAS` if needed and
assigns `_SCHEMAS[name] = schema`.  (This version of the source takes no
third `options` argument — there is no way to register per-resource
options.) -/
def registerResource (reg : Registry) (name : String) (schema : Schema) : Registry :=
  let m := reg.getD []
  some
    (if m.any (fun p => p.1 = name) then
      m.map (fun p => if p.1 = name then (name, schema) else p)
    else m ++ [(name, schema)])

/-- `getSchema(name)`: throws `Error('Schemas are not registered')` when
`_SCHEMAS` was never initialized (`Except.error ()`), otherwise the schema
or `null`. -/
def getSchema (reg : Registry) (name : String) : Except Unit (Option Schema) :=
  match reg with
  | none => Except.error ()
  | some m => Except.ok (lookupSchema m name)

/-- The request produced by `parseEvent`: body, query, authenticated user
(`null` when the event carries none — `parseEvent` maps a falsy claim to
`null`, so `some ""` cannot occur).  `path`/`method` only feed the external
router and are not part of the dispatcher logic modelled here. -/
structure Request where
  user : Option String := none
  body : JObj := []
  query : JObj := []
deriving DecidableEq

/-- The route resolved by the external `orange-dragonfly-router`: the path
parameters relevant to the generic endpoints. -/
structure Route where
  params_resource : Option String := none
  params_uuid : Option String := none
deriving DecidableEq

/-- `` `${userId}` `` as used when the user id reaches a template literal:
JS renders `null` as the string `"null"`. -/
def userString (u : Option String) : String := u.getD "null"

/-- Whether the schema object declares a `timestamp` field
(`'timestamp' in schema`). -/
def schemaHasKey (schema : Schema) (k : String) : Bool :=
  schema.any (fun p => p.1 = k)

/-- `routePost(route, dataProvider, request)`:
`validate(this.getSchema(resource), request.body)` then
`dataProvider.save(request.user, resource, request.body)` and a 201
response.  A missing route parameter or a `null` schema makes the JS code
fault at runtime (`validate(null, ...)`), surfaced as a generic error;
`getSchema` on an uninitialized registry throws, likewise generic. -/
def routePost (V : Validator) (pfx : String) (reg : Registry) (tbl : Table)
    (route : Route) (req : Request) (genUuid : String) (now : Int) :
    Except HandlerErr Response × Table × List StorageOp :=
  match route.params_resource with
  | none => (Except.error (HandlerErr.generic "TypeError"), tbl, [])
  | some resource =>
    match getSchema reg resource with
    | Except.error _ => (Except.error (HandlerErr.generic "Schemas are not registered"), tbl, [])
    | Except.ok none => (Except.error (HandlerErr.generic "TypeError"), tbl, [])
    | Except.ok (some schema) =>
      match V schema req.body with
      | Except.error info => (Except.error (HandlerErr.validation info), tbl, [])
      | Except.ok _ =>
        let r := save pfx tbl (userString req.user) resource req.body none genUuid now
        (Except.ok (apiResponse r.1 201), r.2.1, r.2.2)

/-- `routeReplaceItem(route, dataProvider, request)` (PUT):
`validate(this.getSchema(resource), request.body)`, then
`getAndCheckAccess`; 404 when absent/foreign; otherwise
`save(request.user, resource, request.body, uuid)` and a 200 response. -/
def routeReplaceItem (V : Validator) (pfx : String) (reg : Registry) (tbl : Table)
    (route : Route) (req : Request) (genUuid : String) (now : Int) (timeIso : String) :
    Except HandlerErr Response × Table × List StorageOp :=
  match route.params_resource, route.params_uuid with
  | some resource, some uuid =>
    match getSchema reg resource with
    | Except.error _ => (Except.error (HandlerErr.generic "Schemas are not registered"), tbl, [])
    | Except.ok none => (Except.error (HandlerErr.generic "TypeError"), tbl, [])
    | Except.ok (some schema) =>
      match V schema req.body with
      | Except.error info => (Except.error (HandlerErr.validation info), tbl, [])
      | Except.ok _ =>
        let g := getAndCheckAccess pfx tbl (userString req.user) resource uuid
        match g.1 with
        | none => (Except.ok (apiError "Object not found" 404 [] timeIso), tbl, g.2)
        | some _ =>
          let r := save pfx tbl (userString req.user) resource req.body (some uuid) genUuid now
          (Except.ok (apiResponse r.1 200), r.2.1, g.2 ++ r.2.2)
  | _, _ => (Except.error (HandlerErr.generic "TypeError"), tbl, [])

/-- `routeUpdateItem(route, dataProvider, request)` (PATCH):
`getSchema`, then `getAndCheckAccess` (404 when absent/foreign), then the
merge `\x7b ...item, ...request.body \x7d`, `delete payload.uuid`,
`delete payload.timestamp` unless the schema declares `timestamp`, then
`validate(schema, payload)` and `save(..., payload, uuid)` with a 200
response.  With a `null` schema the JS code reaches
`'timestamp' in schema` only after the fetch and faults there. -/
def routeUpdateItem (V : Validator) (pfx : String) (reg : Registry) (tbl : Table)
    (route : Route) (req : Request) (genUuid : String) (now : Int) (timeIso : String) :
    Except HandlerErr Response × Table × List StorageOp :=
  match route.params_resource, route.params_uuid with
  | some resource, some uuid =>
    match getSchema reg resource with
    | Except.error _ => (Except.error (HandlerErr.generic "Schemas are not registered"), tbl, [])
    | Except.ok schemaOpt =>
      let g := getAndCheckAccess pfx tbl (userString req.user) resource uuid
      match g.1 with
      | none => (Except.ok (apiError "Object not found" 404 [] timeIso), tbl, g.2)
      | some item =>
        match schemaOpt with
        | none => (Except.error (HandlerErr.generic "TypeError"), tbl, g.2)
        | some schema =>
          let payload := jspread item req.body
          let payload := jerase payload "uuid"
          let payload :=
            if schemaHasKey schema "timestamp" then payload else jerase payload "timestamp"
          match V schema payload with
          | Except.error info => (Except.error (HandlerErr.validation info), tbl, g.2)
          | Except.ok _ =>
            let r := save pfx tbl (userString req.user) resource payload (some uuid) genUuid now
            (Except.ok (apiResponse r.1 200), r.2.1, g.2 ++ r.2.2)
  | _, _ => (Except.error (HandlerErr.generic "TypeError"), tbl, [])

/-- The outcome of `await route.route_object(route, dataProvider, request)`
as seen by `processRequest`: a response, or an escaped failure.  The
resolved `route_object` may be any registered controller, so
`processRequest` is stated over an arbitrary such function. -/
abbrev RunHandler := Route → Request → Except HandlerErr Response

/-- `processRequest(request, router, dataProvider)`: 400 when `parseEvent`
returned `null`; 401 when `request.user` is falsy; the route is resolved by
the external router and passed in here; when the route has a `resource`
parameter, `getSchema` decides 404 (a throw from an uninitialized registry
propagates out of `processRequest`, hence `Except.error`); otherwise the
verb handler runs inside the try/catch that maps a `ValidationException` to
a 422 with its `info` and any other failure to a logged, opaque 500. -/
def processRequest (reg : Registry) (req : Option Request) (route : Route)
    (rh : RunHandler) (timeIso : String) : Except Unit Response :=
  match req with
  | none => Except.ok (apiError "Incorrect request" 400 [] timeIso)
  | some request =>
    if truthyOptStr request.user then
      let guarded : Except Unit Response :=
        Except.ok
          (match rh route request with
           | Except.ok resp => resp
           | Except.error (HandlerErr.validation info) =>
             apiError "Validation error" 422 info timeIso
           | Except.error (HandlerErr.generic _) =>
             apiError "Something went wrong" 500 [] timeIso)
      match route.params_resource with
      | some r =>
        match getSchema reg r with
        | Except.error _ => Except.error ()
        | Except.ok none => Except.ok (apiError "Resource type not found" 404 [] timeIso)
        | Except.ok (some _) => guarded
      | none => guarded
    else Except.ok (apiError "User ID not found in the event" 401 [] timeIso)

/-- The list-request schema `LIST_SCHEMA` (its constraint content; the
`parseInt` transforms are executed by the external validator). -/
def LIST_SCHEMA : Schema :=
  [("limit", { type := some "integer", min := some 0 }),
   ("last_uuid", { type := some "string", min := some 36, max := some 36 }),
   ("last_timestamp", { type := some "integer", min := some 0 }),
   ("start", { type := some "integer", min := some 0 }),
   ("end", { type := some "integer", min := some 0 })]

/-! ## Supporting lemmas -/

theorem mem_jkeys_of_mem_jkeys_jerase (o : JObj) (k k' : String)
    (h : k' ∈ jkeys (jerase o k)) : k' ∈ jkeys o := by
  induction o with
  | nil => exact h
  | cons p rest ih =>
    by_cases hp : p.1 = k
    · rw [show jerase (p :: rest) k = jerase rest k by simp [jerase, hp]] at h
      exact List.mem_cons_of_mem _ (ih h)
    · rw [show jerase (p :: rest) k = p :: jerase rest k by simp [jerase, hp]] at h
      rcases List.mem_cons.mp h with hk | hk
      · exact hk ▸ List.mem_cons_self _ _
      · exact List.mem_cons_of_mem _ (ih hk)

theorem keysNodup_jerase (o : JObj) (k : String) (h : KeysNodup o) :
    KeysNodup (jerase o k) := by
  induction o with
  | nil => exact h
  | cons p rest ih =>
    have hparts := List.nodup_cons.mp (show (p.1 :: jkeys rest).Nodup from h)
    by_cases hp : p.1 = k
    · rw [show jerase (p :: rest) k = jerase rest k by simp [jerase, hp]]
      exact ih hparts.2
    · rw [show jerase (p :: rest) k = p :: jerase rest k by simp [jerase, hp]]
      refine List.nodup_cons.mpr ⟨?_, ih hparts.2⟩
      intro hm
      exact hparts.1 (mem_jkeys_of_mem_jkeys_jerase rest k p.1 hm)

/-- The row `save` builds and writes (factored out of `save` for reuse in
statements): uuid is `current_uuid || v4()`, timestamp and cleaned data as
described at `save`. -/
def saveItem (pfx userId resource : String) (data_raw : JObj)
    (current_uuid : Option String) (genUuid : String) (now : Int) : RawItem :=
  let uuid :=
    match current_uuid with
    | some u => if u = "" then genUuid else u
    | none => genUuid
  let td : JVal × JObj :=
    match jget data_raw "timestamp" with
    | some t => (t, jerase data_raw "timestamp")
    | none => (JVal.n now, data_raw)
  { uuid := uuid
    owned_resource_type := getOwnerResourceType pfx userId resource
    timestamp := td.1
    data := td.2 }

theorem save_eq_saveItem (pfx : String) (tbl : Table) (userId resource : String)
    (data_raw : JObj) (current_uuid : Option String) (genUuid : String) (now : Int) :
    save pfx tbl userId resource data_raw current_uuid genUuid now
      = (formatItem (saveItem pfx userId resource data_raw current_uuid genUuid now),
         putItemTable tbl (saveItem pfx userId resource data_raw current_uuid genUuid now),
         [StorageOp.putOp (saveItem pfx userId resource data_raw current_uuid genUuid now)]) :=
  rfl

theorem saveItem_uuid_none (pfx userId resource : String) (data_raw : JObj)
    (genUuid : String) (now : Int) :
    (saveItem pfx userId resource data_raw none genUuid now).uuid = genUuid := rfl

theorem saveItem_timestamp (pfx userId resource : String) (data_raw : JObj)
    (current_uuid : Option String) (genUuid : String) (now : Int) :
    (saveItem pfx userId resource data_raw current_uuid genUuid now).timestamp
      = (jget data_raw "timestamp").getD (JVal.n now) := by
  cases h : jget data_raw "timestamp" <;> simp [saveItem, h]

theorem saveItem_data (pfx userId resource : String) (data_raw : JObj)
    (current_uuid : Option String) (genUuid : String) (now : Int) :
    (saveItem pfx userId resource data_raw current_uuid genUuid now).data
      = jerase data_raw "timestamp" := by
  cases h : jget data_raw "timestamp" with
  | none =>
    have : jerase data_raw "timestamp" = data_raw := by
      have hnm := not_mem_of_jget_eq_none data_raw "timestamp" h
      induction data_raw with
      | nil => rfl
      | cons p rest ih =>
        have hcons : "timestamp" ∉ p.1 :: jkeys rest := hnm
        have h1 : ¬ p.1 = "timestamp" := fun hk =>
          hcons (by rw [hk]; exact List.mem_cons_self _ _)
        have h2 : "timestamp" ∉ jkeys rest := fun hk => hcons (List.mem_cons_of_mem _ hk)
        have h3 : jget rest "timestamp" = none := jget_eq_none_of_not_mem rest _ h2
        simp [jerase, h1, ih h3 h2]
    simp [saveItem, h, this]
  | some t => simp [saveItem, h]

theorem getAndCheckAccess_after_put (pfx userId resource : String) (tbl : Table)
    (it : RawItem)
    (hort : it.owned_resource_type = getOwnerResourceType pfx userId resource) :
    (getAndCheckAccess pfx (putItemTable tbl it) userId resource it.uuid).1
      = some (formatItem it) := by
  simp [getAndCheckAccess, findItem_putItemTable_self, hort]

/-! ## Claims -/

/-- C1: `getAndCheckAccess(userId, resource, uuid)` returns absent (`null`)
both when no record with that uuid exists and when a record exists whose
stored owner tag differs from the tag computed from `(userId, resource)`;
the two cases produce the identical outcome, so a caller cannot distinguish
a missing record from a foreign-owned one. -/
theorem getAndCheckAccess_hides_missing_and_foreign (pfx : String) (tbl : Table)
    (userId resource uuid : String) :
    (findItem tbl uuid = none →
      (getAndCheckAccess pfx tbl userId resource uuid).1 = none) ∧
    (∀ it : RawItem, findItem tbl uuid = some it →
      it.owned_resource_type ≠ getOwnerResourceType pfx userId resource →
      (getAndCheckAccess pfx tbl userId resource uuid).1 = none) := by
  constructor
  · intro h
    simp [getAndCheckAccess, h]
  · intro it h hne
    simp [getAndCheckAccess, h, hne]

/-- Witness for C1: a record absent from an empty table and a record stored
under user `u2` both come back as `none` for user `u1`. -/
theorem getAndCheckAccess_hides_missing_and_foreign_witness :
    (getAndCheckAccess "" [] "u1" "article" "id-1").1 = none ∧
    (getAndCheckAccess ""
        [{ uuid := "id-1", owned_resource_type := "/u2:article",
           timestamp := JVal.n 5, data := [] }] "u1" "article" "id-1").1 = none :=
  ⟨(getAndCheckAccess_hides_missing_and_foreign "" [] "u1" "article" "id-1").1 (by decide),
   (getAndCheckAccess_hides_missing_and_foreign ""
       [{ uuid := "id-1", owned_resource_type := "/u2:article",
          timestamp := JVal.n 5, data := [] }] "u1" "article" "id-1").2
     { uuid := "id-1", owned_resource_type := "/u2:article",
       timestamp := JVal.n 5, data := [] } (by decide) (by decide)⟩

/-- C9: the external form of any row carries the row's top-level `uuid` and
`timestamp` (payload fields of those names are overwritten by the top-level
values), and `owned_resource_type` never appears among its keys, even when
the stored payload contains a field of that name. -/
theorem formatItem_reserved_fields (item : RawItem) :
    jget (formatItem item) "uuid" = some (JVal.s item.uuid) ∧
    jget (formatItem item) "timestamp" = some item.timestamp ∧
    "owned_resource_type" ∉ jkeys (formatItem item) :=
  ⟨jget_formatItem_uuid item, jget_formatItem_timestamp item,
   not_mem_of_jget_eq_none _ _ (jget_formatItem_ort item)⟩

/-- C10: the query `search` sends carries an `ExclusiveStartKey` exactly
when both `last_uuid` and `last_timestamp` are truthy; a `last_timestamp`
of `0` — accepted by the list schema's `last_timestamp` rule (non-negative
integer) — drops the cursor even alongside a valid 36-character
`last_uuid`, leaving a query identical to one with no cursor at all. -/
theorem search_cursor_requires_both_truthy :
    (∀ (pfx userId resource : String) (s : SearchOptions) (now : Int),
      (buildQueryParams pfx userId resource s now).exclusiveStartKey.isSome
        = (truthyOptStr s.last_uuid && truthyOptInt s.last_timestamp)) ∧
    (∀ (pfx : String) (tbl : Table) (userId resource : String) (s : SearchOptions)
        (now : Int),
      (search pfx tbl userId resource s now).2
        = [StorageOp.queryOp (buildQueryParams pfx userId resource s now)]) ∧
    (buildQueryParams "" "u1" "article"
        { last_uuid := some "aaaaaaaa-aaaa-aaaa-aaaa-000000000001",
          last_timestamp := some 0 } 5).exclusiveStartKey = none ∧
    (buildQueryParams "" "u1" "article"
        { last_uuid := some "aaaaaaaa-aaaa-aaaa-aaaa-000000000001",
          last_timestamp := some 0 } 5)
      = buildQueryParams "" "u1" "article" {} 5 ∧
    (List.lookup "last_timestamp" LIST_SCHEMA).map (fun r => checkRule r (JVal.n 0))
      = some true := by
  refine ⟨?_, ?_, by decide, by decide, by decide⟩
  · intro pfx userId resource s now
    cases hu : s.last_uuid with
    | none => simp [buildQueryParams, truthyOptStr, hu]
    | some u =>
      cases ht : s.last_timestamp with
      | none => simp [buildQueryParams, truthyOptStr, truthyOptInt, hu, ht]
      | some t =>
        by_cases h1 : u = ""
        · simp [buildQueryParams, truthyOptStr, truthyOptInt, hu, ht, h1]
        · by_cases h2 : t = 0
          · simp [buildQueryParams, truthyOptStr, truthyOptInt, hu, ht, h1, h2]
          · simp [buildQueryParams, truthyOptStr, truthyOptInt, hu, ht, h1, h2]
  · intro pfx tbl userId resource s now
    rfl

/-- C6 counterexample: `save` with no `existingUuid` and a payload carrying
`timestamp: 123` stores timestamp `123`, not `now() = 999` — the
payload-supplied timestamp overrides `now()` even for a brand-new record.
(The fresh-identifier half of the claim does hold.) -/
theorem save_new_record_timestamp_counterexample :
    jget (save "" [] "u1" "article" [("name", JVal.s "X"), ("timestamp", JVal.n 123)]
        none "fresh-id" 999).1 "timestamp" = some (JVal.n 123) ∧
    jget (save "" [] "u1" "article" [("name", JVal.s "X"), ("timestamp", JVal.n 123)]
        none "fresh-id" 999).1 "timestamp" ≠ some (JVal.n 999) ∧
    jget (save "" [] "u1" "article" [("name", JVal.s "X"), ("timestamp", JVal.n 123)]
        none "fresh-id" 999).1 "uuid" = some (JVal.s "fresh-id") := by
  decide

/-- C6 (amended): `save` with `existingUuid` absent writes one record with
the freshly generated identifier, and with `timestamp = now()` only when
the payload carries no `timestamp` field — a payload `timestamp` is used
instead (this override applies regardless of `existingUuid`). -/
theorem save_new_record_uuid_timestamp (pfx : String) (tbl : Table)
    (userId resource : String) (data_raw : JObj) (genUuid : String) (now : Int) :
    (save pfx tbl userId resource data_raw none genUuid now).2.2
      = [StorageOp.putOp (saveItem pfx userId resource data_raw none genUuid now)] ∧
    (saveItem pfx userId resource data_raw none genUuid now).uuid = genUuid ∧
    (saveItem pfx userId resource data_raw none genUuid now).timestamp
      = (jget data_raw "timestamp").getD (JVal.n now) :=
  ⟨rfl, rfl, saveItem_timestamp pfx userId resource data_raw none genUuid now⟩

/-- C3: `save` followed by `getAndCheckAccess` with the same
`(userId, resource)` and the saved record's uuid returns exactly the record
`save` returned — equal in `uuid`, in `timestamp`, and (for well-formed
payloads) in every payload field; the flatten between raw and external form
loses nothing but the stripped owner tag and the relocated `timestamp`
field. -/
theorem save_getAndCheckAccess_roundtrip (pfx : String) (tbl : Table)
    (userId resource : String) (data_raw : JObj) (genUuid : String) (now : Int) :
    (getAndCheckAccess pfx (save pfx tbl userId resource data_raw none genUuid now).2.1
        userId resource genUuid).1
      = some (save pfx tbl userId resource data_raw none genUuid now).1 ∧
    jget (save pfx tbl userId resource data_raw none genUuid now).1 "uuid"
      = some (JVal.s genUuid) ∧
    jget (save pfx tbl userId resource data_raw none genUuid now).1 "timestamp"
      = some ((jget data_raw "timestamp").getD (JVal.n now)) ∧
    (KeysNodup data_raw → ∀ f : String, f ≠ "uuid" → f ≠ "timestamp" →
      f ≠ "owned_resource_type" →
      jget (save pfx tbl userId resource data_raw none genUuid now).1 f
        = jget data_raw f) := by
  refine ⟨?_, ?_, ?_, ?_⟩
  · exact getAndCheckAccess_after_put pfx userId resource tbl
      (saveItem pfx userId resource data_raw none genUuid now) rfl
  · exact jget_formatItem_uuid (saveItem pfx userId resource data_raw none genUuid now)
  · show jget (formatItem (saveItem pfx userId resource data_raw none genUuid now))
        "timestamp" = _
    rw [jget_formatItem_timestamp, saveItem_timestamp]
  · intro hnd f h1 h2 h3
    show jget (formatItem (saveItem pfx userId resource data_raw none genUuid now)) f
        = jget data_raw f
    have hd : KeysNodup (saveItem pfx userId resource data_raw none genUuid now).data := by
      rw [saveItem_data]
      exact keysNodup_jerase _ _ hnd
    rw [jget_formatItem_payload _ f hd h1 h2 h3, saveItem_data,
      jget_jerase_of_ne _ _ _ h2]

/-- Witness for C3: saving `\x7b name: "X" \x7d` for `u1`/`article` and
fetching it back by the fresh uuid returns the saved record, and the `name`
payload field survives the round trip. -/
theorem save_getAndCheckAccess_roundtrip_witness :
    (getAndCheckAccess ""
        (save "" [] "u1" "article" [("name", JVal.s "X")] none "g-1" 7).2.1
        "u1" "article" "g-1").1
      = some (save "" [] "u1" "article" [("name", JVal.s "X")] none "g-1" 7).1 ∧
    jget (save "" [] "u1" "article" [("name", JVal.s "X")] none "g-1" 7).1 "name"
      = jget [("name", JVal.s "X")] "name" :=
  ⟨(save_getAndCheckAccess_roundtrip "" [] "u1" "article" [("name", JVal.s "X")]
      "g-1" 7).1,
   (save_getAndCheckAccess_roundtrip "" [] "u1" "article" [("name", JVal.s "X")]
      "g-1" 7).2.2.2 (by decide) "name" (by decide) (by decide) (by decide)⟩

theorem buildQueryParams_limit_none (pfx userId resource : String) (s : SearchOptions)
    (now : Int) :
    buildQueryParams pfx userId resource { s with limit := none } now
      = { buildQueryParams pfx userId resource s now with limit := none } := rfl

theorem runQuery_limit_take (tbl : Table) (p : QueryParams) (l : Int)
    (h : p.limit = some l) :
    runQuery tbl p = (runQuery tbl { p with limit := none }).take l.toNat := by
  simp only [runQuery, h]
  rfl

/-- C8 counterexample: `options.limit = 0` is falsy in JS, so `search` does
not set `Limit` at all and the query returns every matching record — here
one record, although the claim promises at most `0`. -/
theorem search_limit_zero_counterexample :
    (search "" [⟨"id-1", "/u1:article", JVal.n 3, []⟩] "u1" "article"
        { limit := some 0 } 5).1.length = 1 ∧
    ¬ ((search "" [⟨"id-1", "/u1:article", JVal.n 3, []⟩] "u1" "article"
        { limit := some 0 } 5).1.length ≤ 0) := by
  decide

/-- C8 (amended): for every `options.limit` that is a positive integer,
`search` returns at most `limit` records, and exactly the `limit`-prefix of
what the same query would return without a limit (so the chosen sort order
is honored); a limit of `0` is falsy and is treated as "no limit". -/
theorem search_positive_limit_truncates (pfx : String) (tbl : Table)
    (userId resource : String) (s : SearchOptions) (now : Int) (l : Int)
    (hl : s.limit = some l) (hpos : 1 ≤ l) :
    (search pfx tbl userId resource s now).1.length ≤ l.toNat ∧
    (search pfx tbl userId resource s now).1
      = ((search pfx tbl userId resource { s with limit := none } now).1.take l.toNat) := by
  have hq : (buildQueryParams pfx userId resource s now).limit = some l := by
    have hne : ¬ l = 0 := by omega
    simp [buildQueryParams, hl, hne]
  have hrun : runQuery tbl (buildQueryParams pfx userId resource s now)
      = (runQuery tbl
          (buildQueryParams pfx userId resource { s with limit := none } now)).take l.toNat := by
    rw [buildQueryParams_limit_none]
    exact runQuery_limit_take tbl _ l hq
  constructor
  · show ((runQuery tbl (buildQueryParams pfx userId resource s now)).map formatItem).length
        ≤ l.toNat
    rw [hrun]
    simp only [List.length_map, List.length_take]
    exact Nat.min_le_left _ _
  · show ((runQuery tbl (buildQueryParams pfx userId resource s now)).map formatItem)
        = _
    rw [hrun, List.map_take]
    rfl

/-- Witness for C8 (amended): two records for one owner, `limit = 1` —
the result has at most one record and is the one-record prefix of the
unlimited result. -/
theorem search_positive_limit_truncates_witness :
    (search "" [⟨"a1", "/u1:a", JVal.n 1, []⟩, ⟨"a2", "/u1:a", JVal.n 2, []⟩]
      "u1" "a" { limit := some 1 } 5).1.length ≤ (1 : Int).toNat ∧
    (search "" [⟨"a1", "/u1:a", JVal.n 1, []⟩, ⟨"a2", "/u1:a", JVal.n 2, []⟩]
      "u1" "a" { limit := some 1 } 5).1
      = ((search "" [⟨"a1", "/u1:a", JVal.n 1, []⟩, ⟨"a2", "/u1:a", JVal.n 2, []⟩]
        "u1" "a" { ({ limit := some 1 } : SearchOptions) with limit := none } 5).1.take
          (1 : Int).toNat) :=
  search_positive_limit_truncates ""
    [⟨"a1", "/u1:a", JVal.n 1, []⟩, ⟨"a2", "/u1:a", JVal.n 2, []⟩]
    "u1" "a" { limit := some 1 } 5 1 rfl (by decide)

theorem getAndCheckAccess_ops (pfx : String) (tbl : Table)
    (userId resource uuid : String) :
    (getAndCheckAccess pfx tbl userId resource uuid).2 = [StorageOp.getOp uuid] := by
  unfold getAndCheckAccess
  split
  · rfl
  · split <;> rfl

/-- C4 scenario: `registerResource` in this source takes only
`(name, schema)` — a third `options` argument (such as `single: true`)
would be discarded by the call — so `"options"` is registered plainly.
One record for user `u1` pre-exists. -/
def c4reg : Registry :=
  registerResource none "options" [("value", { type := some "string" })]

def c4tbl : Table :=
  [⟨"pre-existing", "/u1:options", JVal.n 50, [("value", JVal.s "old")]⟩]

def c4req : Request := { user := some "u1", body := [("value", JVal.s "new")] }

def c4res : Except HandlerErr Response × Table × List StorageOp :=
  routePost validateObj "" c4reg c4tbl ⟨some "options", none⟩ c4req "fresh-id" 100

/-- C4 counterexample: a second CREATE on a resource whose registration
could not carry any `single` option returns 201 with the freshly generated
uuid (`"fresh-id"`, not the pre-existing one), and the only storage command
issued is the put — no `search(limit=1)` runs and nothing delegates to
REPLACE. -/
theorem routePost_no_single_counterexample :
    c4res.1 = Except.ok (apiResponse
        [("uuid", JVal.s "fresh-id"), ("timestamp", JVal.n 100),
         ("value", JVal.s "new")] 201) ∧
    c4res.2.2
      = [StorageOp.putOp ⟨"fresh-id", "/u1:options", JVal.n 100,
          [("value", JVal.s "new")]⟩] :=
  ⟨rfl, rfl⟩

/-- C4 (amended): `registerResource` accepts only a name and a schema, so
no resource has a `single` option; CREATE never searches and never
delegates to REPLACE: every storage command it issues is a put, and on a
validated body it saves a new record with the freshly generated uuid and
answers 201. -/
theorem routePost_always_creates_201 (V : Validator) (pfx : String) (reg : Registry)
    (tbl : Table) (route : Route) (req : Request) (genUuid : String) (now : Int) :
    (∀ op ∈ (routePost V pfx reg tbl route req genUuid now).2.2,
      ∃ it, op = StorageOp.putOp it) ∧
    (∀ resource schema, route.params_resource = some resource →
      getSchema reg resource = Except.ok (some schema) →
      V schema req.body = Except.ok () →
      (routePost V pfx reg tbl route req genUuid now).1
        = Except.ok (apiResponse
            (formatItem (saveItem pfx (userString req.user) resource req.body
              none genUuid now)) 201) ∧
      (saveItem pfx (userString req.user) resource req.body none genUuid now).uuid
        = genUuid) := by
  constructor
  · intro op hop
    simp only [routePost] at hop
    split at hop
    · simp at hop
    · split at hop
      · simp at hop
      · simp at hop
      · split at hop
        · simp at hop
        · rw [save_eq_saveItem] at hop
          simp at hop
          exact ⟨_, hop⟩
  · intro resource schema h1 h2 h3
    refine ⟨?_, rfl⟩
    simp only [routePost, h1, h2, h3, save_eq_saveItem]

/-- Witness for C4 (amended): a CREATE for `"options"` with a valid body
saves a new record under the generated uuid `"w-id"` and answers 201. -/
theorem routePost_always_creates_201_witness :
    (routePost validateObj "" c4reg [] ⟨some "options", none⟩ c4req "w-id" 9).1
      = Except.ok (apiResponse
          (formatItem (saveItem "" (userString c4req.user) "options" c4req.body
            none "w-id" 9)) 201) ∧
    (saveItem "" (userString c4req.user) "options" c4req.body none "w-id" 9).uuid
      = "w-id" :=
  (routePost_always_creates_201 validateObj "" c4reg [] ⟨some "options", none⟩
      c4req "w-id" 9).2 "options" [("value", { type := some "string" })] rfl rfl rfl

/-- C5 scenario: a PUT whose body carries `uuid: "other-id"` while the path
uuid is `"path-id"`; the record exists and is owned by the caller. -/
def c5reg : Registry :=
  registerResource none "article" [("name", { type := some "string" })]

def c5tbl : Table :=
  [⟨"path-id", "/u1:article", JVal.n 50, [("name", JVal.s "old")]⟩]

def c5req : Request :=
  { user := some "u1", body := [("uuid", JVal.s "other-id"), ("name", JVal.s "X")] }

def c5res : Except HandlerErr Response × Table × List StorageOp :=
  routeReplaceItem validateObj "" c5reg c5tbl ⟨some "article", some "path-id"⟩
    c5req "g-id" 100 "T"

/-- C5 counterexample: with a body uuid different from the path uuid the
outcome is 200, not a 400 error; the body is neither stripped nor rejected
— the stored row still carries the mismatched `uuid: "other-id"` payload
field. -/
theorem routeReplaceItem_uuid_mismatch_counterexample :
    c5res.1 = Except.ok (apiResponse
        [("uuid", JVal.s "path-id"), ("timestamp", JVal.n 100),
         ("name", JVal.s "X")] 200) ∧
    c5res.2.2
      = [StorageOp.getOp "path-id",
         StorageOp.putOp ⟨"path-id", "/u1:article", JVal.n 100,
           [("uuid", JVal.s "other-id"), ("name", JVal.s "X")]⟩] :=
  ⟨rfl, rfl⟩

/-- C5 (amended): REPLACE performs no uuid-mismatch check and no stripping:
the body is validated as-is against the full resource schema and passed
verbatim to `save`; the handler's outcome is never a 400 — a returned
response is 200 (after a successful owned fetch) or 404, and a validation
failure surfaces as the thrown typed error instead. -/
theorem routeReplaceItem_never_400 (V : Validator) (pfx : String) (reg : Registry)
    (tbl : Table) (route : Route) (req : Request) (genUuid : String) (now : Int)
    (timeIso : String) :
    (∀ resp, (routeReplaceItem V pfx reg tbl route req genUuid now timeIso).1
        = Except.ok resp → resp.statusCode = 200 ∨ resp.statusCode = 404) ∧
    (∀ resource uuid schema item,
      route.params_resource = some resource → route.params_uuid = some uuid →
      getSchema reg resource = Except.ok (some schema) →
      V schema req.body = Except.ok () →
      (getAndCheckAccess pfx tbl (userString req.user) resource uuid).1 = some item →
      (routeReplaceItem V pfx reg tbl route req genUuid now timeIso).1
        = Except.ok (apiResponse
            (formatItem (saveItem pfx (userString req.user) resource req.body
              (some uuid) genUuid now)) 200)) := by
  constructor
  · intro resp h
    simp only [routeReplaceItem] at h
    split at h
    · split at h
      · simp at h
      · simp at h
      · split at h
        · simp at h
        · split at h
          · simp only [Except.ok.injEq] at h
            right
            rw [← h]
            rfl
          · simp only [Except.ok.injEq] at h
            left
            rw [← h]
            rfl
    · simp at h
  · intro resource uuid schema item h1 h2 h3 h4 h5
    simp only [routeReplaceItem, h1, h2, h3, h4, h5, save_eq_saveItem]

/-- Witness for C5 (amended): the concrete mismatched-uuid PUT returns a
response whose status is 200 or 404 (here 200), reached through both parts
of the theorem. -/
theorem routeReplaceItem_never_400_witness :
    ((apiResponse [("uuid", JVal.s "path-id"), ("timestamp", JVal.n 100),
        ("name", JVal.s "X")] 200).statusCode = 200 ∨
      (apiResponse [("uuid", JVal.s "path-id"), ("timestamp", JVal.n 100),
        ("name", JVal.s "X")] 200).statusCode = 404) ∧
    (routeReplaceItem validateObj "" c5reg c5tbl ⟨some "article", some "path-id"⟩
        c5req "g-id" 100 "T").1
      = Except.ok (apiResponse
          (formatItem (saveItem "" (userString c5req.user) "article" c5req.body
            (some "path-id") "g-id" 100)) 200) :=
  ⟨(routeReplaceItem_never_400 validateObj "" c5reg c5tbl
      ⟨some "article", some "path-id"⟩ c5req "g-id" 100 "T").1
      (apiResponse [("uuid", JVal.s "path-id"), ("timestamp", JVal.n 100),
        ("name", JVal.s "X")] 200) rfl,
   (routeReplaceItem_never_400 validateObj "" c5reg c5tbl
      ⟨some "article", some "path-id"⟩ c5req "g-id" 100 "T").2
      "article" "path-id" [("name", { type := some "string" })]
      [("uuid", JVal.s "path-id"), ("timestamp", JVal.n 50), ("name", JVal.s "old")]
      rfl rfl rfl rfl rfl⟩

/-- C7 scenario: PATCH with body `\x7b amount: true \x7d` against a schema
declaring `amount: integer`; the record exists and is owned by the
caller. -/
def c7reg : Registry :=
  registerResource none "article" [("amount", { type := some "integer" })]

def c7tbl : Table :=
  [⟨"id-7", "/u1:article", JVal.n 50, [("amount", JVal.n 5)]⟩]

def c7req : Request := { user := some "u1", body := [("amount", JVal.b true)] }

def c7res : Except HandlerErr Response × Table × List StorageOp :=
  routeUpdateItem validateObj "" c7reg c7tbl ⟨some "article", some "id-7"⟩
    c7req "g" 100 "T"

/-- C7 counterexample: the UPDATE does raise the validation failure, but a
storage read (the `getAndCheckAccess` point get) has already been issued
before validation runs — the command log at the moment of failure is not
empty, refuting "no read ... happens before the validation failure". -/
theorem routeUpdateItem_read_before_validation_counterexample :
    c7res.1 = Except.error (HandlerErr.validation [("amount", JVal.s "invalid")]) ∧
    c7res.2.2 = [StorageOp.getOp "id-7"] ∧
    c7res.2.2 ≠ [] :=
  ⟨rfl, rfl, by decide⟩

/-- C7 (amended): when UPDATE raises a validation failure, no write has
occurred — the table is unchanged and every storage command issued up to
the failure is a read — but one read necessarily precedes validation,
because the merged payload is built from the fetched record. -/
theorem routeUpdateItem_validation_no_write (V : Validator) (pfx : String)
    (reg : Registry) (tbl : Table) (route : Route) (req : Request)
    (genUuid : String) (now : Int) (timeIso : String) (info : JObj)
    (h : (routeUpdateItem V pfx reg tbl route req genUuid now timeIso).1
          = Except.error (HandlerErr.validation info)) :
    (routeUpdateItem V pfx reg tbl route req genUuid now timeIso).2.1 = tbl ∧
    ∀ op ∈ (routeUpdateItem V pfx reg tbl route req genUuid now timeIso).2.2,
      ∃ u, op = StorageOp.getOp u := by
  simp only [routeUpdateItem] at h ⊢
  split at h
  · split at h
    · simp at h
    · split at h
      · simp at h
      · split at h
        · simp at h
        · split at h
          · refine ⟨rfl, ?_⟩
            rw [getAndCheckAccess_ops]
            intro op hop
            simp at hop
            exact ⟨_, hop⟩
          · simp at h
  · simp at h

/-- Witness for C7 (amended): at the concrete failing UPDATE the table is
returned unchanged. -/
theorem routeUpdateItem_validation_no_write_witness :
    (routeUpdateItem validateObj "" c7reg c7tbl ⟨some "article", some "id-7"⟩
        c7req "g" 100 "T").2.1 = c7tbl :=
  (routeUpdateItem_validation_no_write validateObj "" c7reg c7tbl
      ⟨some "article", some "id-7"⟩ c7req "g" 100 "T"
      [("amount", JVal.s "invalid")] rfl).1

/-- C2: the dispatcher's check order.  An unparsed envelope yields 400 and
an unauthenticated request 401, in both cases independently of the verb
handler (it never runs); a route whose `resource` parameter is not
registered yields 404, again without running the handler; otherwise the
handler runs under the guard that turns a `ValidationException` into a 422
carrying its structured `info` and any other failure into a fixed 500 whose
body does not depend on the failure (nothing is leaked).  The last clause
holds both for routes with a registered `resource` parameter and for routes
without one. -/
theorem processRequest_dispatch_order (reg : Registry) (route : Route)
    (rh : RunHandler) (tIso : String) :
    (processRequest reg none route rh tIso
        = Except.ok (apiError "Incorrect request" 400 [] tIso) ∧
      ∀ rh' : RunHandler, processRequest reg none route rh' tIso
        = processRequest reg none route rh tIso) ∧
    (∀ request : Request, truthyOptStr request.user = false →
      processRequest reg (some request) route rh tIso
        = Except.ok (apiError "User ID not found in the event" 401 [] tIso) ∧
      ∀ rh' : RunHandler, processRequest reg (some request) route rh' tIso
        = processRequest reg (some request) route rh tIso) ∧
    (∀ (request : Request) (r : String) (m : List (String × Schema)),
      truthyOptStr request.user = true → route.params_resource = some r →
      reg = some m → lookupSchema m r = none →
      processRequest reg (some request) route rh tIso
        = Except.ok (apiError "Resource type not found" 404 [] tIso) ∧
      ∀ rh' : RunHandler, processRequest reg (some request) route rh' tIso
        = processRequest reg (some request) route rh tIso) ∧
    (∀ (request : Request) (r : String) (m : List (String × Schema)) (schema : Schema),
      truthyOptStr request.user = true → route.params_resource = some r →
      reg = some m → lookupSchema m r = some schema →
      ((∀ resp, rh route request = Except.ok resp →
          processRequest reg (some request) route rh tIso = Except.ok resp) ∧
        (∀ info, rh route request = Except.error (HandlerErr.validation info) →
          processRequest reg (some request) route rh tIso
            = Except.ok (apiError "Validation error" 422 info tIso)) ∧
        (∀ msg, rh route request = Except.error (HandlerErr.generic msg) →
          processRequest reg (some request) route rh tIso
            = Except.ok (apiError "Something went wrong" 500 [] tIso)))) ∧
    (∀ request : Request,
      truthyOptStr request.user = true → route.params_resource = none →
      ((∀ resp, rh route request = Except.ok resp →
          processRequest reg (some request) route rh tIso = Except.ok resp) ∧
        (∀ info, rh route request = Except.error (HandlerErr.validation info) →
          processRequest reg (some request) route rh tIso
            = Except.ok (apiError "Validation error" 422 info tIso)) ∧
        (∀ msg, rh route request = Except.error (HandlerErr.generic msg) →
          processRequest reg (some request) route rh tIso
            = Except.ok (apiError "Something went wrong" 500 [] tIso)))) := by
  refine ⟨⟨rfl, fun rh' => rfl⟩, ?_, ?_, ?_, ?_⟩
  · intro request hu
    constructor
    · simp [processRequest, hu]
    · intro rh'
      simp [processRequest, hu]
  · intro request r m hu hr hm hl
    subst hm
    constructor
    · simp [processRequest, hu, hr, getSchema, hl]
    · intro rh'
      simp [processRequest, hu, hr, getSchema, hl]
  · intro request r m schema hu hr hm hl
    subst hm
    refine ⟨?_, ?_, ?_⟩
    · intro resp hresp
      simp [processRequest, hu, hr, getSchema, hl, hresp]
    · intro info hresp
      simp [processRequest, hu, hr, getSchema, hl, hresp]
    · intro msg hresp
      simp [processRequest, hu, hr, getSchema, hl, hresp]
  · intro request hu hr
    refine ⟨?_, ?_, ?_⟩
    · intro resp hresp
      simp [processRequest, hu, hr, hresp]
    · intro info hresp
      simp [processRequest, hu, hr, hresp]
    · intro msg hresp
      simp [processRequest, hu, hr, hresp]

def c2rhOk : RunHandler := fun _ _ => Except.ok (apiResponse [] 200)

def c2rhVal : RunHandler :=
  fun _ _ => Except.error (HandlerErr.validation [("f", JVal.s "bad")])

def c2rhGen : RunHandler := fun _ _ => Except.error (HandlerErr.generic "boom")

def c2reg : Registry := registerResource none "article" []

def c2reqA : Request := { user := some "u1" }

def c2reqN : Request := { user := none }

def c2route : Route := ⟨some "article", none⟩

def c2routeX : Route := ⟨some "missing", none⟩

/-- Witness for C2: the five dispatcher outcomes at concrete inputs — 400
for an unparsed envelope, 401 without a user, 404 for an unregistered
resource, the handler's own 200 when all checks pass, 422 with the
validation details, and the fixed 500 for any other failure. -/
theorem processRequest_dispatch_order_witness :
    processRequest c2reg none c2route c2rhOk "T"
      = Except.ok (apiError "Incorrect request" 400 [] "T") ∧
    processRequest c2reg (some c2reqN) c2route c2rhOk "T"
      = Except.ok (apiError "User ID not found in the event" 401 [] "T") ∧
    processRequest c2reg (some c2reqA) c2routeX c2rhOk "T"
      = Except.ok (apiError "Resource type not found" 404 [] "T") ∧
    processRequest c2reg (some c2reqA) c2route c2rhOk "T"
      = Except.ok (apiResponse [] 200) ∧
    processRequest c2reg (some c2reqA) c2route c2rhVal "T"
      = Except.ok (apiError "Validation error" 422 [("f", JVal.s "bad")] "T") ∧
    processRequest c2reg (some c2reqA) c2route c2rhGen "T"
      = Except.ok (apiError "Something went wrong" 500 [] "T") :=
  ⟨(processRequest_dispatch_order c2reg c2route c2rhOk "T").1.1,
   ((processRequest_dispatch_order c2reg c2route c2rhOk "T").2.1 c2reqN rfl).1,
   ((processRequest_dispatch_order c2reg c2routeX c2rhOk "T").2.2.1 c2reqA
      "missing" [("article", [])] rfl rfl rfl rfl).1,
   ((processRequest_dispatch_order c2reg c2route c2rhOk "T").2.2.2.1 c2reqA
      "article" [("article", [])] [] rfl rfl rfl rfl).1 (apiResponse [] 200) rfl,
   ((processRequest_dispatch_order c2reg c2route c2rhVal "T").2.2.2.1 c2reqA
      "article" [("article", [])] [] rfl rfl rfl rfl).2.1
      [("f", JVal.s "bad")] rfl,
   ((processRequest_dispatch_order c2reg c2route c2rhGen "T").2.2.2.1 c2reqA
      "article" [("article", [])] [] rfl rfl rfl rfl).2.2 "boom" rfl⟩

end OrangeMiniApiRest
